import Mathlib

/-!
Verification of the cyber-vajra risk aggregation engines.

This file gives a shallow embedding of the two scoring cores of the
repository:

* the URL scorer `calculate_weighted_risk_score` / `check_url_risk`
  (services/enhanced_url_checker.py), and
* the APK scorer `calculate_risk` / `analyze_apk` (run_analysis.py),

and proves the testable properties of the specification against them.
Python integers are modelled by `ℤ`, Python floats by `ℚ` (the scoring
code only ever compares and linearly combines them), Python `int(x)`
truncation by `pyInt`, and feature dictionaries by structures holding
exactly the keys the scoring code reads (with the code's `.get` default
applied when a provider omits the key).
-/

namespace CyberVajra

/-- Python `int(x)` applied to a float/rational: truncation toward zero. -/
def pyInt (q : ℚ) : ℤ := if q < 0 then ⌈q⌉ else ⌊q⌋

/-- `max(0, min(100, s))` — the final clamp of the URL scorer. -/
def clamp100 (s : ℤ) : ℤ := max 0 (min 100 s)

/-- Keys of the reputation feature dict read by the scorer. -/
structure RepF where
  is_on_blacklist : Bool
  is_gsb_threat : Bool
  virustotal_positives : ℤ

/-- Keys of the domain feature dict read by the scorer. -/
structure DomF where
  domain_age : ℤ
  has_ssl : Bool
  suspicious_tld : Bool
  uses_ip : Bool

/-- Keys of the network feature dict read by the scorer
(`has_security_headers` sub-dict flattened to its three entries,
`dns_records` sub-dict flattened to its two entries). -/
structure NetF where
  is_reachable : Bool
  hsts : Bool
  csp : Bool
  x_frame_options : Bool
  suspicious_redirects : Bool
  has_mx : Bool
  has_spf : Bool

/-- Keys of the content feature dict read by the scorer
(`pattern_features` sub-dict flattened to the two entries read). -/
structure ConF where
  content_risk_score : ℚ
  suspicious_keywords_found : List String
  brand_impersonation : Bool

/-- The `brand_analysis` sub-dict of the visual features. -/
structure BrandAnalysis where
  is_impersonation : Bool
  confidence : ℚ
  suspected_brand : String

/-- Keys of the visual feature dict read by the scorer. -/
structure VisF where
  brand_analysis : BrandAnalysis
  visual_similarity_score : ℚ

/-- One rule block's output: its score delta, the `risk_components`
entries it appends and the `positive_signals` entries it appends, each
paired with the amount that append site added to `risk_score`. -/
abbrev Block := ℤ × List (String × ℤ) × List (String × ℤ)

/-- VirusTotal tier rule (enhanced_url_checker.py lines 175–186). -/
def vtBlock (v : ℤ) : Block :=
  if v > 10 then (60, [(s!"VirusTotal: {v} detections", 60)], [])
  else if v > 5 then (40, [(s!"VirusTotal: {v} detections", 40)], [])
  else if v > 0 then (20, [(s!"VirusTotal: {v} detection(s)", 20)], [])
  else (0, [], [("Clean reputation (0 detections)", 0)])

/-- Domain-age tier rule (lines 189–210).  Note that the `+5` tier and
the unknown-age `+10` tier append no reason. -/
def ageBlock (age : ℤ) : Block :=
  if age > 365 * 5 then
    (-15, [], [(s!"Established domain ({age / 365} years)", -15)])
  else if age > 365 * 2 then
    (-10, [], [(s!"Mature domain ({age / 365} years)", -10)])
  else if age > 365 then (-5, [], [("Domain over 1 year old", -5)])
  else if age > 90 then (5, [], [])
  else if age > 30 then (15, [("Relatively new domain", 15)], [])
  else if age > 0 then (30, [(s!"Very new domain ({age} days)", 30)], [])
  else (10, [], [])

/-- SSL rule (lines 213–217). -/
def sslBlock (ssl : Bool) : Block :=
  if ssl then (0, [], [("Valid SSL certificate", 0)])
  else (25, [("No SSL certificate", 25)], [])

/-- Suspicious-TLD rule (lines 220–222). -/
def tldBlock (tld : Bool) : Block :=
  if tld then (15, [("Suspicious TLD", 15)], []) else (0, [], [])

/-- IP-literal rule (lines 224–226). -/
def ipBlock (ip : Bool) : Block :=
  if ip then (20, [("Uses IP address", 20)], []) else (0, [], [])

/-- Network rule block (lines 229–259): security-header count,
redirects and DNS hygiene when reachable, flat penalty otherwise. -/
def netBlock (n : NetF) : Block :=
  if n.is_reachable then
    let security_count : ℤ :=
      (if n.hsts then 1 else 0) + (if n.csp then 1 else 0) +
        (if n.x_frame_options then 1 else 0)
    let hdr : Block :=
      if security_count ≥ 3 then (-10, [], [("Strong security headers", -10)])
      else if security_count ≥ 2 then (-5, [], [("Good security headers", -5)])
      else if security_count = 0 then (10, [("No security headers", 10)], [])
      else (0, [], [])
    let red : Block :=
      if n.suspicious_redirects then (15, [("URL redirects detected", 15)], [])
      else (0, [], [])
    let dns : Block :=
      if n.has_mx && n.has_spf then (-5, [], [("Proper DNS configuration", -5)])
      else (0, [], [])
    (hdr.1 + red.1 + dns.1, hdr.2.1 ++ red.2.1 ++ dns.2.1,
      hdr.2.2 ++ red.2.2 ++ dns.2.2)
  else (20, [("Site unreachable", 20)], [])

/-- Content rule block (lines 262–283): tiered content risk, suspicious
keywords, brand impersonation in the URL. -/
def conBlock (c : ConF) : Block :=
  let cr : Block :=
    if c.content_risk_score > 0.7 then
      (20, [("High-risk content patterns", 20)], [])
    else if c.content_risk_score > 0.4 then
      (10, [("Suspicious content patterns", 10)], [])
    else (0, [], [])
  let kw : Block :=
    if c.suspicious_keywords_found.length > 3 then
      (15, [(s!"Multiple suspicious keywords: " ++
        String.intercalate ", " (c.suspicious_keywords_found.take 3), 15)], [])
    else if c.suspicious_keywords_found.length > 0 then
      (5, [(s!"Suspicious keyword(s): " ++
        String.intercalate ", " c.suspicious_keywords_found, 5)], [])
    else (0, [], [])
  let br : Block :=
    if c.brand_impersonation then
      (25, [("Possible brand impersonation in URL", 25)], [])
    else (0, [], [])
  (cr.1 + kw.1 + br.1, cr.2.1 ++ kw.2.1 ++ br.2.1, cr.2.2 ++ kw.2.2 ++ br.2.2)

/-- Visual rule block (lines 286–302): confidence-tiered brand
impersonation and visual-similarity tiers. -/
def visBlock (v : VisF) : Block :=
  let imp : Block :=
    if v.brand_analysis.is_impersonation then
      if v.brand_analysis.confidence > 0.7 then
        (30, [(s!"High confidence " ++ v.brand_analysis.suspected_brand ++
          " impersonation", 30)], [])
      else
        (15, [(s!"Possible " ++ v.brand_analysis.suspected_brand ++
          " impersonation", 15)], [])
    else (0, [], [])
  let sim : Block :=
    if v.visual_similarity_score > 0.8 then
      (25, [("High similarity to known phishing sites", 25)], [])
    else if v.visual_similarity_score > 0.6 then
      (10, [("Some similarity to phishing patterns", 10)], [])
    else (0, [], [])
  (imp.1 + sim.1, imp.2.1 ++ sim.2.1, imp.2.2 ++ sim.2.2)

/-- The rule-based accumulation of `calculate_weighted_risk_score`
(lines 175–302), before the ML blend and the clamp: the running score
and the two reason lists, appended in evaluation order. -/
def ruleScore (rep : RepF) (dom : DomF) (net : NetF) (con : ConF)
    (vis : VisF) : Block :=
  let b1 := vtBlock rep.virustotal_positives
  let b2 := ageBlock dom.domain_age
  let b3 := sslBlock dom.has_ssl
  let b4 := tldBlock dom.suspicious_tld
  let b5 := ipBlock dom.uses_ip
  let b6 := netBlock net
  let b7 := conBlock con
  let b8 := visBlock vis
  (b1.1 + b2.1 + b3.1 + b4.1 + b5.1 + b6.1 + b7.1 + b8.1,
    b1.2.1 ++ b2.2.1 ++ b3.2.1 ++ b4.2.1 ++ b5.2.1 ++ b6.2.1 ++ b7.2.1 ++
      b8.2.1,
    b1.2.2 ++ b2.2.2 ++ b3.2.2 ++ b4.2.2 ++ b5.2.2 ++ b6.2.2 ++ b7.2.2 ++
      b8.2.2)

/-- Blend-weight selection (lines 308–316). -/
def mlWeight (posCount riskCount : ℕ) (ml_risk : ℤ) : ℚ :=
  if 3 ≤ posCount ∧ ml_risk > 60 then 0.15
  else if 3 ≤ riskCount ∧ ml_risk < 40 then 0.15
  else 0.25

/-- The blend step (lines 304–318):
`int((1 - ml_weight) * risk_score + ml_weight * ml_risk)`. -/
def blendML (s : ℤ) (posCount riskCount : ℕ) (p : ℚ) : ℤ :=
  let ml_risk := pyInt (p * 100)
  let w := mlWeight posCount riskCount ml_risk
  pyInt ((1 - w) * (s : ℚ) + w * (ml_risk : ℚ))

/-- Result of `calculate_weighted_risk_score`, instrumented with the two
reason lists the function builds (each entry paired with the score delta
of its append site). -/
structure ScoreResult where
  risk_score : ℤ
  reason : String
  risk_components : List (String × ℤ)
  positive_signals : List (String × ℤ)

/-- Reason-summary generation (lines 324–338). -/
def summarize (s : ℤ) (comps pos : List (String × ℤ)) : String :=
  if s < 25 then
    if pos ≠ [] then
      "Low risk - " ++ String.intercalate "; " ((pos.take 2).map (·.1))
    else "No significant risk indicators detected"
  else if s < 60 then
    if comps ≠ [] then
      "Medium risk - " ++ String.intercalate "; " ((comps.take 2).map (·.1))
    else "Some suspicious patterns detected"
  else
    if comps ≠ [] then
      "High risk - " ++ String.intercalate "; " ((comps.take 3).map (·.1))
    else "Multiple risk indicators present"

/-- `calculate_weighted_risk_score` (lines 156–340): blacklist/GSB
short-circuit, rule accumulation, optional ML blend, clamp, summary. -/
def calculate_weighted_risk_score (rep : RepF) (dom : DomF) (net : NetF)
    (con : ConF) (vis : VisF) (ml_prediction : Option ℚ) : ScoreResult :=
  if rep.is_on_blacklist || rep.is_gsb_threat then
    { risk_score := 90
      reason := "Blacklisted or known threat detected"
      risk_components := [("Blacklisted/Google Safe Browsing threat", 90)]
      positive_signals := [] }
  else
    let r := ruleScore rep dom net con vis
    let blended :=
      match ml_prediction with
      | none => r.1
      | some p => blendML r.1 r.2.2.length r.2.1.length p
    let final := clamp100 blended
    { risk_score := final
      reason := summarize final r.2.1 r.2.2
      risk_components := r.2.1
      positive_signals := r.2.2 }

/-- Status thresholds of `check_url_risk` (lines 474–480) with
`RISK_THRESHOLDS = {'legitimate': 25, 'suspicious': 60}`. -/
def statusOf (s : ℤ) : String :=
  if s < 25 then "legitimate" else if s < 60 then "suspicious" else "risky"

/-- The trusted-domain set (lines 25–29). -/
def TRUSTED_DOMAINS : List String :=
  ["google.com", "microsoft.com", "apple.com", "amazon.com", "github.com",
   "wikipedia.org", "stackoverflow.com", "youtube.com", "facebook.com",
   "twitter.com", "linkedin.com", "paypal.com", "ebay.com", "netflix.com",
   "instagram.com"]

/-- Left-to-right, non-overlapping replacement of every occurrence of
`pat` — the semantics of Python `str.replace` on character lists.
`fuel` bounds the characters consumed; callers pass the list's length. -/
def replaceAux (pat rep : List Char) : ℕ → List Char → List Char
  | _, [] => []
  | 0, s => s
  | fuel + 1, c :: rest =>
      if pat.isPrefixOf (c :: rest) ∧ pat ≠ [] then
        rep ++ replaceAux pat rep fuel (List.drop (pat.length - 1) rest)
      else c :: replaceAux pat rep fuel rest

/-- Python `s.replace(pat, rep)` for nonempty `pat`. -/
def pyReplace (s pat rep : String) : String :=
  ⟨replaceAux pat.data rep.data s.data.length s.data⟩

/-- Python `s.lower()` (ASCII case, which is all the trusted set uses). -/
def pyLower (s : String) : String := ⟨s.data.map Char.toLower⟩

/-- Python `s.endswith(suffix)`. -/
def strEndsWith (s suffix : String) : Bool := suffix.data.isSuffixOf s.data

/-- `is_trusted_domain` (lines 66–72), taking the already-extracted
`urlparse(url).netloc`; Python's `.replace('www.', '')` removes every
occurrence of `'www.'`, not only a leading one. -/
def is_trusted_domain (netloc : String) : Bool :=
  let domain := pyReplace (pyLower netloc) "www." ""
  TRUSTED_DOMAINS.any fun trusted =>
    domain = trusted || strEndsWith domain ("." ++ trusted)

/-- The externally visible shape of a `check_url_risk` report (the
fields the claims are about). -/
structure UrlReport where
  overall_status : String
  risk_score : ℤ
  reason : String
  trusted_domain : Bool

/-- Each analyzer call may raise; `Except.error` models the exception. -/
def runAnalyzers (domRes : Except String DomF) (conRes : Except String ConF)
    (repRes : Except String RepF) (netRes : Except String NetF)
    (visRes : Except String VisF) :
    Except String (DomF × ConF × RepF × NetF × VisF) := do
  let d ← domRes
  let c ← conRes
  let r ← repRes
  let n ← netRes
  let v ← visRes
  return (d, c, r, n, v)

/-- `check_url_risk` (lines 342–617): trusted-domain short-circuit,
analyzer runs in source order (domain, content, reputation, network,
visual — the first exception aborts to the error report), weighted
scoring, threshold status. -/
def check_url_risk (netloc : String) (domRes : Except String DomF)
    (conRes : Except String ConF) (repRes : Except String RepF)
    (netRes : Except String NetF) (visRes : Except String VisF)
    (ml_prediction : Option ℚ) : UrlReport :=
  if is_trusted_domain netloc then
    { overall_status := "legitimate"
      risk_score := 0
      reason := "Domain is verified and trusted."
      trusted_domain := true }
  else
    match runAnalyzers domRes conRes repRes netRes visRes with
    | Except.ok (d, c, r, n, v) =>
        let res := calculate_weighted_risk_score r d n c v ml_prediction
        { overall_status := statusOf res.risk_score
          risk_score := res.risk_score
          reason := res.reason
          trusted_domain := false }
    | Except.error e =>
        { overall_status := "error"
          risk_score := -1
          reason := "Analysis failed: " ++ e
          trusted_domain := false }

/-! ## APK scorer embedding (run_analysis.py) -/

/-- One entry of the APK report's `reasons` list. -/
structure ApkReason where
  level : String
  risk_type : String
  message : String
deriving DecidableEq

/-- The VirusTotal hash-report dict as read by `calculate_risk`:
`error` models the `'error'` key, `positives`/`total` the stats keys
(with the code's `.get` defaults `0` and `1`). -/
structure VtReport where
  error : Option String
  positives : ℤ
  total : ℤ

/-- One clone-comparator warning dict. -/
structure CloneWarning where
  type : String
  message : String

/-- The `analysis_results` dict fields read by `calculate_risk`
(`metadata.permissions`, `virustotal` — `none` models a missing/empty
dict, which is falsy in Python — and `clone_analysis`). -/
structure ApkAnalysis where
  permissions : List String
  virustotal : Option VtReport
  clone_analysis : List CloneWarning

/-- `DANGEROUS_PERMISSIONS` (run_analysis.py lines 112–126):
permission → (weight, message, risk type). -/
def DANGEROUS_PERMISSIONS : List (String × ℤ × String × String) :=
  [("android.permission.READ_SMS", (15,
      "Can read all SMS messages, including private conversations and two-factor authentication codes.",
      "Spyware Risk")),
   ("android.permission.SEND_SMS", (20,
      "Can send SMS messages from your phone without your knowledge, potentially signing you up for costly premium services.",
      "Toll Fraud Risk")),
   ("android.permission.READ_CONTACTS", (10,
      "Can access and steal your entire contact list.", "Spyware Risk")),
   ("android.permission.ACCESS_FINE_LOCATION", (10,
      "Can track your precise physical location.", "Spyware Risk")),
   ("android.permission.RECORD_AUDIO", (15,
      "Can record audio using the microphone at any time.", "Spyware Risk")),
   ("android.permission.CAMERA", (10,
      "Can access your camera to take pictures or record video without your knowledge.",
      "Spyware Risk")),
   ("android.permission.INSTALL_PACKAGES", (20,
      "Can install other applications on your device, which could be malware.",
      "Malware Risk")),
   ("android.permission.REQUEST_INSTALL_PACKAGES", (20,
      "Can request to install other apps, potentially tricking users into installing malware.",
      "Trojan Risk")),
   ("android.permission.BIND_DEVICE_ADMIN", (25,
      "Can gain administrative privileges, making the app very difficult to uninstall.",
      "Malware Risk")),
   ("android.permission.SYSTEM_ALERT_WINDOW", (15,
      "Can draw over other apps, which can be used to create fake login screens and steal passwords.",
      "Phishing Risk")),
   ("android.permission.QUERY_ALL_PACKAGES", (10,
      "Can see all other apps installed on your device, a potential privacy risk.",
      "Privacy Risk")),
   ("android.permission.REQUEST_DELETE_PACKAGES", (15,
      "Can request to uninstall other apps, potentially removing security software.",
      "Persistence Risk")),
   ("android.permission.RECEIVE_BOOT_COMPLETED", (5,
      "Allows the app to start itself as soon as the device finishes booting up.",
      "Stealth Risk"))]

/-- Python `perm.split('.')[-1]`. -/
def permShort (p : String) : String := (p.splitOn ".").getLastD p

/-- Result tuple of `calculate_risk`:
(confidence_score, confidence_level, total_risk_score, reasons). -/
abbrev RiskTuple := ℤ × String × ℤ × List ApkReason

/-- `calculate_risk` (run_analysis.py lines 128–178). -/
def calculate_risk (a : ApkAnalysis) : RiskTuple :=
  let dangerous_found :=
    a.permissions.filter fun p => (DANGEROUS_PERMISSIONS.lookup p).isSome
  let permission_risk :=
    (dangerous_found.map fun p =>
      ((DANGEROUS_PERMISSIONS.lookup p).map (·.1)).getD 0).sum
  let permReasons : List ApkReason := dangerous_found.map fun p =>
    match DANGEROUS_PERMISSIONS.lookup p with
    | some (_, message, risk_type) =>
        { level := "High Risk Permission", risk_type := risk_type
          message := s!"Requests '{permShort p}': " ++ message }
    | none => { level := "", risk_type := "", message := "" }
  let vtPart : ℚ × List ApkReason :=
    match a.virustotal with
    | some r =>
        if r.error = none then
          let vt_risk : ℚ :=
            if r.total > 0 then (r.positives : ℚ) / (r.total : ℚ) * 100 else 0
          let vtReasons : List ApkReason :=
            if r.positives > 0 then
              [{ level := "CRITICAL", risk_type := "Malware"
                 message :=
                   s!"Flagged by {r.positives}/{r.total} engines on VirusTotal." }]
            else []
          (vt_risk, vtReasons)
        else (0, [])
    | none => (0, [])
  let heuristic_risk :=
    (a.clone_analysis.map fun w =>
      if w.type = "signature_mismatch" then (65 : ℤ) else 45).sum
  let cloneReasons : List ApkReason := a.clone_analysis.map fun w =>
    { level := "CRITICAL", risk_type := "Clone / Impersonation"
      message := w.message }
  let total_risk_score :=
    min 100 (pyInt ((permission_risk : ℚ) + vtPart.1 + (heuristic_risk : ℚ)))
  let confidence_score := 100 - total_risk_score
  let confidence_level :=
    if confidence_score ≥ 81 then "✅ Excellent Confidence"
    else if confidence_score ≥ 51 then "⚠️ Fair Confidence"
    else if confidence_score ≥ 21 then "🚩 Poor Confidence"
    else if confidence_score > 10 then "❌ No Confidence - DO NOT INSTALL"
    else "☠️ CRITICAL RISK - MALWARE LIKELY"
  let reasons0 := permReasons ++ vtPart.2 ++ cloneReasons
  let reasons :=
    if reasons0 = [] then
      [{ level := "Info", risk_type := "None Detected"
         message := "This app appears to be safe based on our analysis." }]
    else reasons0
  (confidence_score, confidence_level, total_risk_score, reasons)

/-- The `ai_analysis` dict of the APK report. -/
structure AiAnalysis where
  type : String
  confidence_percent : ℤ

/-- The APK report fields the claims are about
(`details.risk_score` and `details.ai_analysis` flattened in). -/
structure ApkReport where
  confidence_score : ℤ
  confidence_level : String
  reasons : List ApkReason
  risk_score : ℤ
  ai_analysis : AiAnalysis

/-- The report assembly of `analyze_apk` (run_analysis.py lines
200–225): risk scoring first, then the advisory classifier
(`classifier` is the model's benign probability when a trained model is
present, `none` when absent). -/
def analyze_apk_report (a : ApkAnalysis) (classifier : Option ℚ) :
    ApkReport :=
  let r := calculate_risk a
  let ai : AiAnalysis :=
    match classifier with
    | none => { type := "Not Available", confidence_percent := 0 }
    | some p =>
        let benign_prob := p * 100
        { type :=
            if benign_prob > 50 then "Likely Benign" else "Potentially Unsafe"
          confidence_percent := pyInt benign_prob }
  { confidence_score := r.1
    confidence_level := r.2.1
    reasons := r.2.2.2
    risk_score := r.2.2.1
    ai_analysis := ai }

/-! ## Derived quantities used by the verification -/

/-- The rule-based score contribution of everything except the
VirusTotal tier block (blocks 2–8 of `ruleScore`). -/
def restScore (dom : DomF) (net : NetF) (con : ConF) (vis : VisF) : ℤ :=
  (ageBlock dom.domain_age).1 + (sslBlock dom.has_ssl).1 +
    (tldBlock dom.suspicious_tld).1 + (ipBlock dom.uses_ip).1 +
    (netBlock net).1 + (conBlock con).1 + (visBlock vis).1

/-- Number of `risk_components` entries from blocks 2–8. -/
def restCompsLen (dom : DomF) (net : NetF) (con : ConF) (vis : VisF) : ℕ :=
  (ageBlock dom.domain_age).2.1.length + (sslBlock dom.has_ssl).2.1.length +
    (tldBlock dom.suspicious_tld).2.1.length +
    (ipBlock dom.uses_ip).2.1.length + (netBlock net).2.1.length +
    (conBlock con).2.1.length + (visBlock vis).2.1.length

/-- Number of `positive_signals` entries from blocks 2–8. -/
def restPosLen (dom : DomF) (net : NetF) (con : ConF) (vis : VisF) : ℕ :=
  (ageBlock dom.domain_age).2.2.length + (sslBlock dom.has_ssl).2.2.length +
    (tldBlock dom.suspicious_tld).2.2.length +
    (ipBlock dom.uses_ip).2.2.length + (netBlock net).2.2.length +
    (conBlock con).2.2.length + (visBlock vis).2.2.length

/-- Sum of the per-reason score contributions over both emitted reason
lists (the spec's `score_contribution` sum). -/
def reasonContribSum (comps pos : List (String × ℤ)) : ℤ :=
  ((comps ++ pos).map (·.2)).sum

/-- The score contributions of `calculate_weighted_risk_score` that are
not attached to any emitted reason: the two silent domain-age tiers
(`+5` for ages in (90, 365] and `+10` for unknown/non-positive ages). -/
def unreasonedAgeAdjust (age : ℤ) : ℤ :=
  if age > 365 then 0
  else if age > 90 then 5
  else if age > 0 then 0
  else 10

/-- A failed/empty provider record for reputation: every key read by
the scorer takes its `.get` default. -/
def repFailed : RepF := ⟨false, false, 0⟩

/-- A failed/empty provider record for the domain analyzer. -/
def domFailed : DomF := ⟨-1, false, false, false⟩

/-- A failed/empty provider record for the network analyzer. -/
def netFailed : NetF := ⟨false, false, false, false, false, false, false⟩

/-- A failed/empty provider record for the content analyzer. -/
def conFailed : ConF := ⟨0, [], false⟩

/-- A failed/empty provider record for the visual analyzer. -/
def visFailed : VisF := ⟨⟨false, 0, ""⟩, 0⟩

/-- Domain features of the classifier-influence counterexample:
unknown age, SSL present. -/
def cexDom : DomF := ⟨-1, true, false, false⟩

/-- Network features of the classifier-influence counterexample:
reachable, exactly one security header, redirects flagged. -/
def cexNet : NetF := ⟨true, true, false, false, true, false, false⟩

/-- Content features of the classifier-influence counterexample:
mid-tier content risk, one suspicious keyword. -/
def cexCon : ConF := ⟨1/2, ["login"], false⟩

/-- Visual features of the classifier-influence counterexample:
mid-tier similarity. -/
def cexVis : VisF := ⟨⟨false, 0, ""⟩, 7/10⟩

/-- Network features of the reason-sum counterexample: reachable with
exactly one security header, so the header rule adds nothing. -/
def rsNet : NetF := ⟨true, true, false, false, false, false, false⟩

/-- Network features giving both a risk reason (redirects) and a
positive signal (MX+SPF DNS records) — used to exhibit an input with
four risk reasons and three positive signals. -/
def wNet : NetF := ⟨true, true, false, false, true, true, true⟩

/-! ## General lemmas about the clamp and the truncation -/

theorem clamp100_mono {a b : ℤ} (h : a ≤ b) : clamp100 a ≤ clamp100 b := by
  unfold clamp100; omega

theorem clamp100_bounds (s : ℤ) : 0 ≤ clamp100 s ∧ clamp100 s ≤ 100 := by
  unfold clamp100; omega

theorem clamp100_sub_le {a b : ℤ} (_ : a ≤ b) :
    clamp100 b - clamp100 a ≤ b - a := by
  unfold clamp100; omega

theorem pyInt_mono {a b : ℚ} (h : a ≤ b) : pyInt a ≤ pyInt b := by
  unfold pyInt
  split_ifs with h1 h2
  · exact Int.ceil_mono h
  · have h3 : ⌈a⌉ ≤ 0 := Int.ceil_le.mpr (by exact_mod_cast h1.le)
    have h4 : (0 : ℤ) ≤ ⌊b⌋ := Int.floor_nonneg.mpr (le_of_not_lt h2)
    omega
  · linarith
  · exact Int.floor_mono h

theorem pyInt_add_int_le (q : ℚ) (n : ℤ) (hn : 0 ≤ n) :
    pyInt (q + n) ≤ pyInt q + n := by
  unfold pyInt
  split_ifs with h1 h2 h3
  · rw [Int.ceil_add_int]
  · have : (0 : ℚ) ≤ n := by exact_mod_cast hn
    linarith
  · rw [Int.floor_add_int]
    have := Int.floor_le_ceil q
    omega
  · rw [Int.floor_add_int]

/-! ## Claim theorems -/

/-- C1: for every combination of feature dictionaries and optional
classifier probability, the aggregated `risk_score` lies in `[0, 100]`
and the derived status is exactly the fixed-threshold function of the
score (`legitimate` below 25, `suspicious` below 60, `risky` above). -/
theorem url_score_bounds_and_status (rep : RepF) (dom : DomF) (net : NetF)
    (con : ConF) (vis : VisF) (ml : Option ℚ) :
    0 ≤ (calculate_weighted_risk_score rep dom net con vis ml).risk_score ∧
    (calculate_weighted_risk_score rep dom net con vis ml).risk_score ≤ 100 ∧
    statusOf (calculate_weighted_risk_score rep dom net con vis ml).risk_score
      = (if (calculate_weighted_risk_score rep dom net con vis ml).risk_score
            < 25 then "legitimate"
         else if (calculate_weighted_risk_score rep dom net con vis
            ml).risk_score < 60 then "suspicious"
         else "risky") := by
  refine ⟨?_, ?_, rfl⟩ <;>
  · unfold calculate_weighted_risk_score
    split
    · norm_num
    · have := clamp100_bounds
        (match ml with
          | none => (ruleScore rep dom net con vis).1
          | some p =>
              blendML (ruleScore rep dom net con vis).1
                (ruleScore rep dom net con vis).2.2.length
                (ruleScore rep dom net con vis).2.1.length p)
      simp only []
      omega

/-- C2: a blacklist or Google-Safe-Browsing hit makes the aggregation
return immediately with score exactly 90 (status `risky`) and the single
blacklist reason, independently of every other feature and of the
classifier probability. -/
theorem url_blacklist_short_circuit (rep : RepF) (dom : DomF) (net : NetF)
    (con : ConF) (vis : VisF) (ml : Option ℚ)
    (h : rep.is_on_blacklist = true ∨ rep.is_gsb_threat = true) :
    calculate_weighted_risk_score rep dom net con vis ml =
      { risk_score := 90
        reason := "Blacklisted or known threat detected"
        risk_components := [("Blacklisted/Google Safe Browsing threat", 90)]
        positive_signals := [] } ∧
    statusOf 90 = "risky" := by
  have hb : (rep.is_on_blacklist || rep.is_gsb_threat) = true := by
    rcases h with h | h <;> simp [h]
  exact ⟨by simp [calculate_weighted_risk_score, hb], by decide⟩

/-- C2 witness: a concrete blacklisted input short-circuits to 90. -/
theorem url_blacklist_short_circuit_witness :
    calculate_weighted_risk_score ⟨true, false, 0⟩ domFailed netFailed
      conFailed visFailed (some (1/2)) =
      { risk_score := 90
        reason := "Blacklisted or known threat detected"
        risk_components := [("Blacklisted/Google Safe Browsing threat", 90)]
        positive_signals := [] } ∧
    statusOf 90 = "risky" :=
  url_blacklist_short_circuit _ _ _ _ _ _ (Or.inl rfl)

/-- C6: when the URL's host, lowercased and with `www.` stripped,
equals or is a subdomain of a trusted domain, `check_url_risk` returns
the fixed trusted report — score 0, status `legitimate` — without
consulting any analyzer result or the classifier. -/
theorem url_trusted_short_circuit (netloc : String)
    (dr : Except String DomF) (cr : Except String ConF)
    (rr : Except String RepF) (nr : Except String NetF)
    (vr : Except String VisF) (ml : Option ℚ)
    (h : ∃ t ∈ TRUSTED_DOMAINS,
      pyReplace (pyLower netloc) "www." "" = t ∨
      strEndsWith (pyReplace (pyLower netloc) "www." "") ("." ++ t) = true) :
    check_url_risk netloc dr cr rr nr vr ml =
      { overall_status := "legitimate"
        risk_score := 0
        reason := "Domain is verified and trusted."
        trusted_domain := true } := by
  have ht : is_trusted_domain netloc = true := by
    unfold is_trusted_domain
    rw [List.any_eq_true]
    obtain ⟨t, htm, hd⟩ := h
    refine ⟨t, htm, ?_⟩
    rcases hd with h | h <;> simp [h]
  simp [check_url_risk, ht]

/-- C6 witness: `www.google.com` (with untouched analyzer results that
would otherwise score high) yields the trusted report. -/
theorem url_trusted_short_circuit_witness :
    check_url_risk "www.google.com" (Except.ok domFailed)
      (Except.ok conFailed) (Except.ok ⟨true, true, 20⟩)
      (Except.ok netFailed) (Except.ok visFailed) (some (9/10)) =
      { overall_status := "legitimate"
        risk_score := 0
        reason := "Domain is verified and trusted."
        trusted_domain := true } :=
  url_trusted_short_circuit _ _ _ _ _ _ _
    ⟨"google.com", by decide, Or.inl (by decide)⟩

/-- C8: the APK report's risk fields (`total_risk_score`,
`confidence_score`, `confidence_level`, `reasons`) are identical
whatever the optional classifier outputs (including its absence); the
classifier only ever lands in the separate `ai_analysis` field. -/
theorem apk_classifier_noninterference (a : ApkAnalysis)
    (c1 c2 : Option ℚ) :
    (analyze_apk_report a c1).risk_score =
      (analyze_apk_report a c2).risk_score ∧
    (analyze_apk_report a c1).confidence_score =
      (analyze_apk_report a c2).confidence_score ∧
    (analyze_apk_report a c1).confidence_level =
      (analyze_apk_report a c2).confidence_level ∧
    (analyze_apk_report a c1).reasons = (analyze_apk_report a c2).reasons ∧
    (analyze_apk_report a c1).risk_score = (calculate_risk a).2.2.1 :=
  ⟨rfl, rfl, rfl, rfl, rfl⟩

/-- C9: with every provider failed (all keys at their `.get` defaults)
and no classifier, the aggregation returns the fixed non-zero baseline
10 (unknown age) + 25 (no SSL) + 20 (unreachable) = 55, never 0. -/
theorem url_all_failed_baseline :
    (calculate_weighted_risk_score repFailed domFailed netFailed conFailed
       visFailed none).risk_score = 10 + 25 + 20 ∧
    (calculate_weighted_risk_score repFailed domFailed netFailed conFailed
       visFailed none).risk_score ≠ 0 := by
  constructor <;>
  · norm_num [calculate_weighted_risk_score, ruleScore, vtBlock, ageBlock,
      sslBlock, tldBlock, ipBlock, netBlock, conBlock, visBlock, repFailed,
      domFailed, netFailed, conFailed, visFailed, clamp100]

/-- C10: if an analyzer call raises (and the domain is not trusted),
`check_url_risk` returns the error report: `risk_score = -1` — outside
`[0, 100]` — and `overall_status = "error"` — outside the three-value
status enum. -/
theorem url_analyzer_exception_error_report (netloc : String)
    (dr : Except String DomF) (cr : Except String ConF)
    (rr : Except String RepF) (nr : Except String NetF)
    (vr : Except String VisF) (ml : Option ℚ) (e : String)
    (h1 : is_trusted_domain netloc = false)
    (h2 : runAnalyzers dr cr rr nr vr = Except.error e) :
    check_url_risk netloc dr cr rr nr vr ml =
      { overall_status := "error"
        risk_score := -1
        reason := "Analysis failed: " ++ e
        trusted_domain := false } ∧
    (check_url_risk netloc dr cr rr nr vr ml).risk_score < 0 ∧
    (check_url_risk netloc dr cr rr nr vr ml).overall_status ≠ "legitimate" ∧
    (check_url_risk netloc dr cr rr nr vr ml).overall_status ≠ "suspicious" ∧
    (check_url_risk netloc dr cr rr nr vr ml).overall_status ≠ "risky" := by
  have hr : check_url_risk netloc dr cr rr nr vr ml =
      { overall_status := "error"
        risk_score := -1
        reason := "Analysis failed: " ++ e
        trusted_domain := false } := by
    simp [check_url_risk, h1, h2]
  refine ⟨hr, ?_, ?_, ?_, ?_⟩ <;> simp [hr]

/-- C10 witness: a concrete failing domain-analyzer call on an
untrusted host yields the error report. -/
theorem url_analyzer_exception_error_report_witness :
    check_url_risk "example.com" (Except.error "whois timeout")
      (Except.ok conFailed) (Except.ok repFailed) (Except.ok netFailed)
      (Except.ok visFailed) none =
      { overall_status := "error"
        risk_score := -1
        reason := "Analysis failed: " ++ "whois timeout"
        trusted_domain := false } :=
  (url_analyzer_exception_error_report "example.com"
    (Except.error "whois timeout") (Except.ok conFailed) (Except.ok repFailed)
    (Except.ok netFailed) (Except.ok visFailed) none
    "whois timeout" (by decide) rfl).1

/-- C7: an APK whose dangerous permissions are exactly `READ_SMS` and
`SEND_SMS`, with a clean VirusTotal report and exactly one
`signature_mismatch` clone warning, scores `15 + 20 + 65 = 100` (at the
100 cap), `confidence_score = 0`, and the bottom-tier critical label. -/
theorem apk_worked_example (a : ApkAnalysis) (t : ℤ) (msg : String)
    (h1 : a.permissions.filter
        (fun p => (DANGEROUS_PERMISSIONS.lookup p).isSome) =
      ["android.permission.READ_SMS", "android.permission.SEND_SMS"])
    (h2 : a.virustotal = some ⟨none, 0, t⟩)
    (h3 : a.clone_analysis = [⟨"signature_mismatch", msg⟩]) :
    (calculate_risk a).2.2.1 = 100 ∧ (calculate_risk a).1 = 0 ∧
    (calculate_risk a).2.1 = "☠️ CRITICAL RISK - MALWARE LIKELY" := by
  unfold calculate_risk
  rw [h1, h2, h3]
  have hvt : (if t > 0 then ((0 : ℤ) : ℚ) / (t : ℚ) * 100 else 0) = 0 := by
    split_ifs <;> simp
  simp only [hvt]
  simp [DANGEROUS_PERMISSIONS, List.lookup]
  norm_num [pyInt]

/-- C7 witness: a concrete APK analysis (the two SMS permissions plus a
non-dangerous one, clean 0/70 VirusTotal report, one signature-mismatch
warning) hits the 100/0/critical outcome. -/
theorem apk_worked_example_witness :
    (calculate_risk ⟨["android.permission.READ_SMS",
        "android.permission.INTERNET", "android.permission.SEND_SMS"],
      some ⟨none, 0, 70⟩,
      [⟨"signature_mismatch",
        "Signature does not match official signature for 'X'."⟩]⟩).2.2.1
      = 100 ∧
    (calculate_risk ⟨["android.permission.READ_SMS",
        "android.permission.INTERNET", "android.permission.SEND_SMS"],
      some ⟨none, 0, 70⟩,
      [⟨"signature_mismatch",
        "Signature does not match official signature for 'X'."⟩]⟩).1 = 0 ∧
    (calculate_risk ⟨["android.permission.READ_SMS",
        "android.permission.INTERNET", "android.permission.SEND_SMS"],
      some ⟨none, 0, 70⟩,
      [⟨"signature_mismatch",
        "Signature does not match official signature for 'X'."⟩]⟩).2.1
      = "☠️ CRITICAL RISK - MALWARE LIKELY" :=
  apk_worked_example _ 70 _ (by decide) rfl rfl

/-! ## Reason-contribution bookkeeping (claim C5) -/

theorem vtBlock_contrib (v : ℤ) :
    ((vtBlock v).2.1.map (·.2)).sum + ((vtBlock v).2.2.map (·.2)).sum =
      (vtBlock v).1 := by
  unfold vtBlock; split_ifs <;> simp

theorem ageBlock_contrib (a : ℤ) :
    ((ageBlock a).2.1.map (·.2)).sum + ((ageBlock a).2.2.map (·.2)).sum +
      unreasonedAgeAdjust a = (ageBlock a).1 := by
  unfold ageBlock unreasonedAgeAdjust
  split_ifs <;> simp <;> omega

theorem sslBlock_contrib (b : Bool) :
    ((sslBlock b).2.1.map (·.2)).sum + ((sslBlock b).2.2.map (·.2)).sum =
      (sslBlock b).1 := by
  unfold sslBlock; split_ifs <;> simp

theorem tldBlock_contrib (b : Bool) :
    ((tldBlock b).2.1.map (·.2)).sum + ((tldBlock b).2.2.map (·.2)).sum =
      (tldBlock b).1 := by
  unfold tldBlock; split_ifs <;> simp

theorem ipBlock_contrib (b : Bool) :
    ((ipBlock b).2.1.map (·.2)).sum + ((ipBlock b).2.2.map (·.2)).sum =
      (ipBlock b).1 := by
  unfold ipBlock; split_ifs <;> simp

theorem netBlock_contrib (n : NetF) :
    ((netBlock n).2.1.map (·.2)).sum + ((netBlock n).2.2.map (·.2)).sum =
      (netBlock n).1 := by
  unfold netBlock
  split_ifs <;> simp

theorem conBlock_contrib (c : ConF) :
    ((conBlock c).2.1.map (·.2)).sum + ((conBlock c).2.2.map (·.2)).sum =
      (conBlock c).1 := by
  unfold conBlock
  split_ifs <;> simp

theorem visBlock_contrib (v : VisF) :
    ((visBlock v).2.1.map (·.2)).sum + ((visBlock v).2.2.map (·.2)).sum =
      (visBlock v).1 := by
  unfold visBlock
  split_ifs <;> simp

/-- The pre-blend rule score equals the sum of the contributions paired
with the emitted reasons plus the silent domain-age contributions. -/
theorem ruleScore_contrib (rep : RepF) (dom : DomF) (net : NetF)
    (con : ConF) (vis : VisF) :
    (ruleScore rep dom net con vis).1 =
      reasonContribSum (ruleScore rep dom net con vis).2.1
        (ruleScore rep dom net con vis).2.2 +
        unreasonedAgeAdjust dom.domain_age := by
  have h1 := vtBlock_contrib rep.virustotal_positives
  have h2 := ageBlock_contrib dom.domain_age
  have h3 := sslBlock_contrib dom.has_ssl
  have h4 := tldBlock_contrib dom.suspicious_tld
  have h5 := ipBlock_contrib dom.uses_ip
  have h6 := netBlock_contrib net
  have h7 := conBlock_contrib con
  have h8 := visBlock_contrib vis
  unfold ruleScore reasonContribSum
  simp only [List.map_append, List.sum_append]
  linarith

/-- C5 counterexample: with an unknown domain age (+10 with no reason),
SSL present, a reachable host with exactly one security header and all
other features clean, the emitted reasons' contributions sum to 0 while
the blend-free final risk score is 10 — so the claimed reason-sum
invariant fails on the code as written. -/
theorem url_reason_sum_counterexample :
    clamp100 (reasonContribSum
      (calculate_weighted_risk_score repFailed cexDom rsNet conFailed
        visFailed none).risk_components
      (calculate_weighted_risk_score repFailed cexDom rsNet conFailed
        visFailed none).positive_signals) = 0 ∧
    (calculate_weighted_risk_score repFailed cexDom rsNet conFailed
      visFailed none).risk_score = 10 := by
  constructor <;>
  · norm_num [calculate_weighted_risk_score, ruleScore, vtBlock, ageBlock,
      sslBlock, tldBlock, ipBlock, netBlock, conBlock, visBlock, repFailed,
      cexDom, rsNet, conFailed, visFailed, clamp100, reasonContribSum]

/-- C5 amended: in every non-short-circuited assessment the pre-blend
rule score — which is exactly the rule-based component fed into the
classifier blend — equals the sum of the contributions attached to the
emitted reasons plus the two silent domain-age tiers (+5 for ages in
(90, 365], +10 for unknown age), and with no blend the final risk score
is the clamp of that pre-blend score. -/
theorem url_reason_sum_amended (rep : RepF) (dom : DomF) (net : NetF)
    (con : ConF) (vis : VisF) (ml : Option ℚ)
    (hb : rep.is_on_blacklist = false) (hg : rep.is_gsb_threat = false) :
    (ruleScore rep dom net con vis).1 =
      reasonContribSum
        (calculate_weighted_risk_score rep dom net con vis ml).risk_components
        (calculate_weighted_risk_score rep dom net con vis ml).positive_signals
        + unreasonedAgeAdjust dom.domain_age ∧
    (calculate_weighted_risk_score rep dom net con vis none).risk_score =
      clamp100 (ruleScore rep dom net con vis).1 := by
  constructor
  · have h := ruleScore_contrib rep dom net con vis
    simp [calculate_weighted_risk_score, hb, hg]
    exact h
  · simp [calculate_weighted_risk_score, hb, hg]

/-- C5 amended witness: the amended identity evaluated on the
counterexample input (pre-blend score 10 = reason sum 0 + silent 10). -/
theorem url_reason_sum_amended_witness :
    (ruleScore repFailed cexDom rsNet conFailed visFailed).1 =
      reasonContribSum
        (calculate_weighted_risk_score repFailed cexDom rsNet conFailed
          visFailed none).risk_components
        (calculate_weighted_risk_score repFailed cexDom rsNet conFailed
          visFailed none).positive_signals
        + unreasonedAgeAdjust cexDom.domain_age ∧
    (calculate_weighted_risk_score repFailed cexDom rsNet conFailed
      visFailed none).risk_score =
      clamp100 (ruleScore repFailed cexDom rsNet conFailed visFailed).1 :=
  url_reason_sum_amended repFailed cexDom rsNet conFailed visFailed none
    rfl rfl

/-- C4 counterexample: an input with four risk-component reasons but
only two positive signals, scored with classifier probability 0.9 and
0.1: the 0.9 run blends at the normal weight 0.25 (the reduced weight
0.15 applies only when `ml_risk < 40`), giving scores 60 vs 44 — a
16-point difference, above the claimed 15-point bound. -/
theorem url_classifier_influence_counterexample :
    (ruleScore repFailed cexDom cexNet cexCon cexVis).2.1.length = 4 ∧
    (calculate_weighted_risk_score repFailed cexDom cexNet cexCon cexVis
      (some (9/10))).risk_score = 60 ∧
    (calculate_weighted_risk_score repFailed cexDom cexNet cexCon cexVis
      (some (1/10))).risk_score = 44 ∧
    ¬((60 : ℤ) - 44 ≤ 15) := by
  refine ⟨?_, ?_, ?_, by norm_num⟩ <;>
  · norm_num [calculate_weighted_risk_score, ruleScore, vtBlock, ageBlock,
      sslBlock, tldBlock, ipBlock, netBlock, conBlock, visBlock, repFailed,
      cexDom, cexNet, cexCon, cexVis, clamp100, blendML, mlWeight, pyInt]

/-- C4 amended: with at least four risk-component reasons AND at least
three positive signals (so the 0.9-probability run also takes the
reduced weight via the positive-signal branch), the two runs with
classifier probabilities 0.9 and 0.1 both blend at weight 0.15 and
their final scores differ by at most 15 points (in fact at most 12). -/
theorem url_classifier_influence_amended (rep : RepF) (dom : DomF)
    (net : NetF) (con : ConF) (vis : VisF)
    (hb : rep.is_on_blacklist = false) (hg : rep.is_gsb_threat = false)
    (h4 : 4 ≤ (ruleScore rep dom net con vis).2.1.length)
    (h3 : 3 ≤ (ruleScore rep dom net con vis).2.2.length) :
    0 ≤ (calculate_weighted_risk_score rep dom net con vis
          (some (9/10))).risk_score -
        (calculate_weighted_risk_score rep dom net con vis
          (some (1/10))).risk_score ∧
    (calculate_weighted_risk_score rep dom net con vis
          (some (9/10))).risk_score -
        (calculate_weighted_risk_score rep dom net con vis
          (some (1/10))).risk_score ≤ 15 := by
  have hml9 : pyInt ((9/10 : ℚ) * 100) = 90 := by norm_num [pyInt]
  have hml1 : pyInt ((1/10 : ℚ) * 100) = 10 := by norm_num [pyInt]
  have hs : ∀ p : ℚ,
      (calculate_weighted_risk_score rep dom net con vis
        (some p)).risk_score =
      clamp100 (blendML (ruleScore rep dom net con vis).1
        (ruleScore rep dom net con vis).2.2.length
        (ruleScore rep dom net con vis).2.1.length p) := by
    intro p
    simp [calculate_weighted_risk_score, hb, hg]
  rw [hs, hs]
  set S := (ruleScore rep dom net con vis).1 with hSdef
  set P := (ruleScore rep dom net con vis).2.2.length with hPdef
  set R := (ruleScore rep dom net con vis).2.1.length with hRdef
  have hw9 : mlWeight P R 90 = 0.15 := by
    unfold mlWeight
    rw [if_pos ⟨h3, by norm_num⟩]
  have hw1 : mlWeight P R 10 = 0.15 := by
    unfold mlWeight
    rw [if_neg (fun h => absurd h.2 (by norm_num)),
      if_pos ⟨le_trans (by norm_num) h4, by norm_num⟩]
  have hb9 : blendML S P R (9/10) =
      pyInt ((1 - 0.15) * (S : ℚ) + 0.15 * ((90 : ℤ) : ℚ)) := by
    unfold blendML
    simp only [hml9, hw9]
  have hb1 : blendML S P R (1/10) =
      pyInt ((1 - 0.15) * (S : ℚ) + 0.15 * ((10 : ℤ) : ℚ)) := by
    unfold blendML
    simp only [hml1, hw1]
  have key : (1 - 0.15) * (S : ℚ) + 0.15 * ((90 : ℤ) : ℚ) =
      ((1 - 0.15) * (S : ℚ) + 0.15 * ((10 : ℤ) : ℚ)) + ((12 : ℤ) : ℚ) := by
    push_cast
    ring
  have hle : blendML S P R (1/10) ≤ blendML S P R (9/10) := by
    rw [hb9, hb1, key]
    refine pyInt_mono ?_
    have : ((0 : ℤ) : ℚ) ≤ ((12 : ℤ) : ℚ) := by norm_num
    linarith
  have hdiff : blendML S P R (9/10) ≤ blendML S P R (1/10) + 12 := by
    rw [hb9, hb1, key]
    exact pyInt_add_int_le _ 12 (by norm_num)
  constructor
  · have := clamp100_mono hle
    omega
  · have := clamp100_sub_le hle
    omega

/-- C4 amended witness: a concrete input with four risk reasons and
three positive signals, evaluated at probabilities 0.9 and 0.1. -/
theorem url_classifier_influence_amended_witness :
    0 ≤ (calculate_weighted_risk_score repFailed cexDom wNet cexCon cexVis
          (some (9/10))).risk_score -
        (calculate_weighted_risk_score repFailed cexDom wNet cexCon cexVis
          (some (1/10))).risk_score ∧
    (calculate_weighted_risk_score repFailed cexDom wNet cexCon cexVis
          (some (9/10))).risk_score -
        (calculate_weighted_risk_score repFailed cexDom wNet cexCon cexVis
          (some (1/10))).risk_score ≤ 15 :=
  url_classifier_influence_amended repFailed cexDom wNet cexCon cexVis
    rfl rfl
    (by norm_num [ruleScore, vtBlock, ageBlock, sslBlock, tldBlock, ipBlock,
      netBlock, conBlock, visBlock, repFailed, cexDom, wNet, cexCon, cexVis])
    (by norm_num [ruleScore, vtBlock, ageBlock, sslBlock, tldBlock, ipBlock,
      netBlock, conBlock, visBlock, repFailed, cexDom, wNet, cexCon, cexVis])


theorem vtBlock_fst_mono {v1 v2 : ℤ} (h : v1 ≤ v2) :
    (vtBlock v1).1 ≤ (vtBlock v2).1 := by
  unfold vtBlock
  split_ifs <;> simp <;> omega

theorem vtBlock_eq_of_nonpos {v : ℤ} (h : v ≤ 0) :
    vtBlock v = (0, [], [("Clean reputation (0 detections)", 0)]) := by
  unfold vtBlock
  rw [if_neg (by omega), if_neg (by omega), if_neg (by omega)]

theorem vtBlock_of_pos {v : ℤ} (h : 0 < v) :
    20 ≤ (vtBlock v).1 ∧ (vtBlock v).1 ≤ 60 ∧
    (vtBlock v).2.1.length = 1 ∧ (vtBlock v).2.2.length = 0 := by
  unfold vtBlock
  split_ifs <;> simp

theorem ageBlock_bounds (a : ℤ) :
    -15 ≤ (ageBlock a).1 ∧
    (ageBlock a).1 ≤ 30 - 35 * ((ageBlock a).2.2.length : ℤ) ∧
    (ageBlock a).2.2.length ≤ 1 := by
  unfold ageBlock
  split_ifs <;> simp

theorem sslBlock_bounds (b : Bool) :
    0 ≤ (sslBlock b).1 ∧
    (sslBlock b).1 ≤ 25 - 25 * ((sslBlock b).2.2.length : ℤ) ∧
    (sslBlock b).2.2.length ≤ 1 := by
  unfold sslBlock
  split_ifs <;> simp

theorem tldBlock_bounds (b : Bool) :
    0 ≤ (tldBlock b).1 ∧ (tldBlock b).1 ≤ 15 ∧
    (tldBlock b).2.2.length = 0 := by
  unfold tldBlock
  split_ifs <;> simp

theorem ipBlock_bounds (b : Bool) :
    0 ≤ (ipBlock b).1 ∧ (ipBlock b).1 ≤ 20 ∧
    (ipBlock b).2.2.length = 0 := by
  unfold ipBlock
  split_ifs <;> simp

theorem netBlock_bounds (n : NetF) :
    -15 ≤ (netBlock n).1 ∧
    (netBlock n).1 ≤ 25 - 5 * ((netBlock n).2.2.length : ℤ) ∧
    (netBlock n).1 ≤ 45 - 20 * ((netBlock n).2.2.length : ℤ) ∧
    (netBlock n).2.2.length ≤ 2 := by
  simp only [netBlock]
  split_ifs <;> simp

theorem conBlock_bounds (c : ConF) :
    0 ≤ (conBlock c).1 ∧ (conBlock c).1 ≤ 60 ∧
    (conBlock c).2.2.length = 0 := by
  simp only [conBlock]
  split_ifs <;> simp

theorem visBlock_bounds (v : VisF) :
    0 ≤ (visBlock v).1 ∧ (visBlock v).1 ≤ 55 ∧
    (visBlock v).2.2.length = 0 := by
  simp only [visBlock]
  split_ifs <;> simp

theorem restScore_lb (dom : DomF) (net : NetF) (con : ConF) (vis : VisF) :
    -30 ≤ restScore dom net con vis := by
  have h2 := ageBlock_bounds dom.domain_age
  have h3 := sslBlock_bounds dom.has_ssl
  have h4 := tldBlock_bounds dom.suspicious_tld
  have h5 := ipBlock_bounds dom.uses_ip
  have h6 := netBlock_bounds net
  have h7 := conBlock_bounds con
  have h8 := visBlock_bounds vis
  unfold restScore
  omega

theorem restScore_ub (dom : DomF) (net : NetF) (con : ConF) (vis : VisF)
    (h : 2 ≤ restPosLen dom net con vis) :
    restScore dom net con vis ≤ 210 := by
  have h2 := ageBlock_bounds dom.domain_age
  have h3 := sslBlock_bounds dom.has_ssl
  have h4 := tldBlock_bounds dom.suspicious_tld
  have h5 := ipBlock_bounds dom.uses_ip
  have h6 := netBlock_bounds net
  have h7 := conBlock_bounds con
  have h8 := visBlock_bounds vis
  unfold restScore
  unfold restPosLen at h
  omega

theorem ruleScore_eq (rep : RepF) (dom : DomF) (net : NetF) (con : ConF)
    (vis : VisF) :
    (ruleScore rep dom net con vis).1 =
      (vtBlock rep.virustotal_positives).1 + restScore dom net con vis := by
  unfold ruleScore restScore
  ring

theorem ruleScore_comps_len (rep : RepF) (dom : DomF) (net : NetF)
    (con : ConF) (vis : VisF) :
    (ruleScore rep dom net con vis).2.1.length =
      (vtBlock rep.virustotal_positives).2.1.length +
        restCompsLen dom net con vis := by
  unfold ruleScore restCompsLen
  simp [List.length_append]
  omega

theorem ruleScore_pos_len (rep : RepF) (dom : DomF) (net : NetF)
    (con : ConF) (vis : VisF) :
    (ruleScore rep dom net con vis).2.2.length =
      (vtBlock rep.virustotal_positives).2.2.length +
        restPosLen dom net con vis := by
  unfold ruleScore restPosLen
  simp [List.length_append]
  omega


theorem mlWeight_cases (P R : ℕ) (m : ℤ) :
    mlWeight P R m = 0.15 ∨ mlWeight P R m = 0.25 := by
  unfold mlWeight
  split_ifs <;> simp

theorem pyInt_blend_le {w : ℚ} (hw1 : w ≤ 1) {s1 s2 : ℤ} (M : ℤ)
    (h : s1 ≤ s2) :
    pyInt ((1 - w) * (s1 : ℚ) + w * (M : ℚ)) ≤
      pyInt ((1 - w) * (s2 : ℚ) + w * (M : ℚ)) := by
  apply pyInt_mono
  have hc : (s1 : ℚ) ≤ (s2 : ℚ) := by exact_mod_cast h
  have := mul_le_mul_of_nonneg_left hc (by linarith : (0 : ℚ) ≤ 1 - w)
  linarith

theorem blendML_mono_score {s1 s2 : ℤ} (P R : ℕ) (p : ℚ) (h : s1 ≤ s2) :
    blendML s1 P R p ≤ blendML s2 P R p := by
  simp only [blendML]
  rcases mlWeight_cases P R (pyInt (p * 100)) with hw | hw <;>
    rw [hw] <;> exact pyInt_blend_le (by norm_num) _ h

theorem blend_vt_mono (rest : ℤ) (oR oP : ℕ) {v1 v2 : ℤ} (hv : v1 ≤ v2)
    (p : ℚ) (hlb : -30 ≤ rest) (hub : 2 ≤ oP → rest ≤ 210) :
    blendML ((vtBlock v1).1 + rest)
      ((vtBlock v1).2.2.length + oP) ((vtBlock v1).2.1.length + oR) p ≤
    blendML ((vtBlock v2).1 + rest)
      ((vtBlock v2).2.2.length + oP) ((vtBlock v2).2.1.length + oR) p := by
  rcases le_or_lt v2 0 with h2 | h2
  · rw [vtBlock_eq_of_nonpos (hv.trans h2), vtBlock_eq_of_nonpos h2]
  rcases le_or_lt v1 0 with h1 | h1
  swap
  · -- both tiers strictly positive: identical reason counts, same weight
    obtain ⟨_, _, hcl1, hpl1⟩ := vtBlock_of_pos h1
    obtain ⟨_, _, hcl2, hpl2⟩ := vtBlock_of_pos h2
    rw [hcl1, hpl1, hcl2, hpl2]
    exact blendML_mono_score _ _ p (by have := vtBlock_fst_mono hv; omega)
  -- v1 ≤ 0 < v2: the clean-reputation signal flips to a risk component
  obtain ⟨hc2l, hc2u, hcl2, hpl2⟩ := vtBlock_of_pos h2
  rw [vtBlock_eq_of_nonpos h1, hcl2, hpl2]
  simp only [blendML]
  set M := pyInt (p * 100) with hM
  set c2 := (vtBlock v2).1 with hc2
  simp only [List.length_cons, List.length_nil, zero_add]
  -- LHS: score rest, positives 1+oP, risks 0+oR
  -- RHS: score c2+rest, positives 0+oP, risks 1+oR
  by_cases hA1 : 3 ≤ 1 + oP ∧ M > 60
  · have hw1 : mlWeight (1 + oP) oR M = 0.15 := by
      unfold mlWeight
      rw [if_pos hA1]
    by_cases hA2 : 3 ≤ oP ∧ M > 60
    · have hw2 : mlWeight oP (1 + oR) M = 0.15 := by
        unfold mlWeight
        rw [if_pos hA2]
      rw [hw1, hw2]
      exact pyInt_blend_le (by norm_num) _ (by omega)
    · have hw2 : mlWeight oP (1 + oR) M = 0.25 := by
        unfold mlWeight
        rw [if_neg hA2, if_neg (fun hq => absurd hq.2 (by omega))]
      rw [hw1, hw2]
      -- positives drop from 3 to 2: 0.15 → 0.25; uses rest ≤ 210, M ≥ 61
      have hoP : 2 ≤ oP := by
        rcases hA1 with ⟨ha, hm⟩
        rcases Nat.lt_or_ge oP 2 with hlt | hge
        · exfalso
          exact hA2 ⟨by omega, hm⟩
        · exact hge
      have hrest : rest ≤ 210 := hub hoP
      apply pyInt_mono
      have hMq : (61 : ℚ) ≤ (M : ℚ) := by exact_mod_cast hA1.2
      have hrq : (rest : ℚ) ≤ 210 := by exact_mod_cast hrest
      have hcq : (20 : ℚ) ≤ (c2 : ℚ) := by exact_mod_cast hc2l
      push_cast
      nlinarith
  · have hA2 : ¬(3 ≤ oP ∧ M > 60) := fun hq => hA1 ⟨by omega, hq.2⟩
    by_cases hB1 : 3 ≤ oR ∧ M < 40
    · have hB2 : 3 ≤ 1 + oR ∧ M < 40 := ⟨by omega, hB1.2⟩
      have hw1 : mlWeight (1 + oP) oR M = 0.15 := by
        unfold mlWeight
        rw [if_neg hA1, if_pos hB1]
      have hw2 : mlWeight oP (1 + oR) M = 0.15 := by
        unfold mlWeight
        rw [if_neg hA2, if_pos hB2]
      rw [hw1, hw2]
      exact pyInt_blend_le (by norm_num) _ (by omega)
    · by_cases hB2 : 3 ≤ 1 + oR ∧ M < 40
      · have hw1 : mlWeight (1 + oP) oR M = 0.25 := by
          unfold mlWeight
          rw [if_neg hA1, if_neg hB1]
        have hw2 : mlWeight oP (1 + oR) M = 0.15 := by
          unfold mlWeight
          rw [if_neg hA2, if_pos hB2]
        rw [hw1, hw2]
        -- risk reasons reach 3: 0.25 → 0.15; uses rest ≥ -30, M ≤ 39
        apply pyInt_mono
        have hMi : M ≤ 39 := by omega
        have hMq : (M : ℚ) ≤ 39 := by exact_mod_cast hMi
        have hrq : (-30 : ℚ) ≤ (rest : ℚ) := by exact_mod_cast hlb
        have hcq : (20 : ℚ) ≤ (c2 : ℚ) := by exact_mod_cast hc2l
        push_cast
        nlinarith
      · have hw1 : mlWeight (1 + oP) oR M = 0.25 := by
          unfold mlWeight
          rw [if_neg hA1, if_neg hB1]
        have hw2 : mlWeight oP (1 + oR) M = 0.25 := by
          unfold mlWeight
          rw [if_neg hA2, if_neg hB2]
        rw [hw1, hw2]
        exact pyInt_blend_le (by norm_num) _ (by omega)

/-- C3: increasing `virustotal_positives` while holding every other
feature and the classifier probability fixed never decreases the final
risk score — across the tier boundaries, through the blend-weight
selection (whose reason counts shift when the clean-reputation signal
becomes a detection reason) and through the final clamp. -/
theorem url_vt_monotonicity (b g : Bool) (dom : DomF) (net : NetF)
    (con : ConF) (vis : VisF) (ml : Option ℚ) {v1 v2 : ℤ} (h : v1 ≤ v2) :
    (calculate_weighted_risk_score ⟨b, g, v1⟩ dom net con vis ml).risk_score
      ≤ (calculate_weighted_risk_score ⟨b, g, v2⟩ dom net con vis
          ml).risk_score := by
  by_cases hbg : (b || g) = true
  · simp [calculate_weighted_risk_score, hbg]
  · have hbg' : (b || g) = false := by
      simpa using hbg
    rcases ml with _ | p
    · simp only [calculate_weighted_risk_score, hbg', Bool.false_eq_true,
        if_false]
      apply clamp100_mono
      rw [ruleScore_eq, ruleScore_eq]
      have := vtBlock_fst_mono h
      simp only []
      omega
    · simp only [calculate_weighted_risk_score, hbg', Bool.false_eq_true,
        if_false]
      apply clamp100_mono
      rw [ruleScore_eq, ruleScore_eq, ruleScore_comps_len,
        ruleScore_comps_len, ruleScore_pos_len, ruleScore_pos_len]
      exact blend_vt_mono (restScore dom net con vis)
        (restCompsLen dom net con vis) (restPosLen dom net con vis) h p
        (restScore_lb dom net con vis) (restScore_ub dom net con vis)

/-- C3 witness: three detections score no higher than seven detections
on a concrete feature set. -/
theorem url_vt_monotonicity_witness :
    (calculate_weighted_risk_score ⟨false, false, 3⟩ cexDom cexNet cexCon
      cexVis (some (1/2))).risk_score ≤
    (calculate_weighted_risk_score ⟨false, false, 7⟩ cexDom cexNet cexCon
      cexVis (some (1/2))).risk_score :=
  url_vt_monotonicity false false cexDom cexNet cexCon cexVis (some (1/2))
    (by norm_num)

end CyberVajra
